import Mathlib

/-!
Shallow embedding of the order-management examples of the repository:
src/examples/basic_adding_2.py, src/examples/basic_adding_3.py and
src/examples/avellaneda_stoikov_market_maker.py.

Prices and sizes are modelled as exact rationals (for the depth-based adder)
or reals (for the stochastic-control adder, whose quote formula uses exp);
timestamps in milliseconds as integers; order ids as naturals.  Network
responses are supplied as oracle arguments, one per call site of the
handler.  The dictionary access provide_state["oid"] in the gap branch of
basic_adding_2 is partial (KeyError on a state without that key), so the
book-update step of basic_adding_2 returns Except Unit.
-/

set_option maxHeartbeats 1000000
set_option maxRecDepth 4000

namespace HL

/-- Side "A" (ask / sell) or "B" (bid / buy), as in hyperliquid SIDES. -/
inductive Side
  | A
  | B
deriving DecidableEq

namespace BasicAdding2

/-- DEPTH = 0.001 in basic_adding_2.py. -/
def DEPTH : ℚ := 1 / 1000

/-- ALLOWABLE_DEVIATION = 0.5 in basic_adding_2.py. -/
def ALLOWABLE_DEVIATION : ℚ := 1 / 2

/-- MAX_POSITION = 20 in basic_adding_2.py. -/
def MAX_POSITION : ℚ := 20

/-- COIN = "ARB" in basic_adding_2.py. -/
def COIN : String := "ARB"

/-- The tagged-dict ProvideState union of basic_adding_2.py:
in_flight_order has only a time field, resting and gap carry px and oid. -/
inductive ProvideState
  | inFlightOrder (time : ℤ)
  | resting (px : ℚ) (oid : ℕ)
  | cancelled
  | gap (px : ℚ) (oid : ℕ)
deriving DecidableEq

/-- Outcome of exchange.cancel: response status ok or anything else. -/
inductive CancelResponse
  | ok
  | err
deriving DecidableEq

/-- Outcome of exchange.order: status ok with a resting acknowledgement
carrying an oid, status ok with any other statuses[0] payload, or a
non-ok status. -/
inductive PlaceResponse
  | okResting (oid : ℕ)
  | okOther
  | err
deriving DecidableEq

/-- A network request issued by the strategy. -/
inductive Request
  | cancel (coin : String) (oid : ℕ)
  | place (coin : String) (isBuy : Bool) (sz : ℚ) (px : ℚ)
deriving DecidableEq

/-- side_to_int: 1 for "A", -1 for "B" (as a rational factor). -/
def sideToInt : Side → ℚ
  | Side.A => 1
  | Side.B => -1

/-- side == "B" is the buy flag passed to exchange.order. -/
def isBuySide : Side → Bool
  | Side.A => false
  | Side.B => true

/-- levels[side_to_uint(side)][0].px: levels[0] holds bids, levels[1] asks,
so side "A" reads the best ask and side "B" the best bid. -/
def bookPrice : Side → ℚ → ℚ → ℚ
  | Side.A, _, bestAsk => bestAsk
  | Side.B, bestBid, _ => bestBid

/-- ideal_distance = book_price * DEPTH. -/
def ideal_distance (side : Side) (bestBid bestAsk : ℚ) : ℚ :=
  bookPrice side bestBid bestAsk * DEPTH

/-- ideal_price = book_price + ideal_distance * side_to_int(side). -/
def ideal_price (side : Side) (bestBid bestAsk : ℚ) : ℚ :=
  bookPrice side bestBid bestAsk + ideal_distance side bestBid bestAsk * sideToInt side

/-- The gap-branch guard: best_ask - best_bid > 2 * ideal_distance. -/
def gapTriggered (side : Side) (bestBid bestAsk : ℚ) : Prop :=
  bestAsk - bestBid > 2 * ideal_distance side bestBid bestAsk

instance (side : Side) (bestBid bestAsk : ℚ) : Decidable (gapTriggered side bestBid bestAsk) :=
  inferInstanceAs (Decidable (bestAsk - bestBid > 2 * ideal_distance side bestBid bestAsk))

/-- gap_price: best_bid + ideal_distance * 1.5 for side "A",
best_ask - ideal_distance * 1.5 for side "B". -/
def gap_price : Side → ℚ → ℚ → ℚ
  | Side.A, bestBid, bestAsk => bestBid + ideal_distance Side.A bestBid bestAsk * (3 / 2)
  | Side.B, bestBid, bestAsk => bestAsk - ideal_distance Side.B bestBid bestAsk * (3 / 2)

/-- Models the 5-significant-digit price rounding float(f-string .5g)
applied before placing an order. -/
def round5g (x : ℚ) : ℚ :=
  if x = 0 then 0
  else
    ((round (x * (10 : ℚ) ^ ((4 : ℤ) - Int.log 10 |x|)) : ℤ) : ℚ) *
      (10 : ℚ) ^ (Int.log 10 |x| - (4 : ℤ))

/-- The dictionary access provide_state["oid"]: defined (some) exactly on the
resting and gap variants; none models a KeyError. -/
def lookupOid : ProvideState → Option ℕ
  | ProvideState.resting _ oid => some oid
  | ProvideState.gap _ oid => some oid
  | ProvideState.inFlightOrder _ => none
  | ProvideState.cancelled => none

/-- recently_cancelled_oid_to_time[oid] = ts on the registry, modelled as an
association list with unique keys. -/
def setReg (reg : List (ℕ × ℤ)) (oid : ℕ) (ts : ℤ) : List (ℕ × ℤ) :=
  (oid, ts) :: reg.filter (fun p => decide (p.1 ≠ oid))

/-- Result of one iteration of the side loop of on_book_update. -/
structure StepResult where
  st : ProvideState
  position : Option ℚ
  registry : List (ℕ × ℤ)
  requests : List Request
deriving DecidableEq

/-- Result of the gap section (lines 85-131); skip records a python
continue, which jumps past the rest of the loop body for this side. -/
structure GapOut where
  st : ProvideState
  position : Option ℚ
  registry : List (ℕ × ℤ)
  requests : List Request
  skip : Bool
deriving DecidableEq

/-- Lines 85-131 of basic_adding_2.py: the gap branch.  On a state other
than cancelled the code reads provide_state["oid"], which is a KeyError
(error) on in_flight_order. -/
def gapSection (side : Side) (bestBid bestAsk : ℚ) (now : ℤ) (position : Option ℚ)
    (st0 : ProvideState) (reg : List (ℕ × ℤ))
    (gapCancelResp : CancelResponse) (gapPlaceResp : PlaceResponse) :
    Except Unit GapOut :=
  if gapTriggered side bestBid bestAsk then
    let gp := gap_price side bestBid bestAsk
    let cancelStep : Except Unit (ProvideState × List (ℕ × ℤ) × List Request) :=
      if st0 = ProvideState.cancelled then Except.ok (st0, reg, [])
      else
        match lookupOid st0 with
        | none => Except.error ()
        | some oid =>
          match gapCancelResp with
          | CancelResponse.ok =>
            Except.ok (ProvideState.cancelled, setReg reg oid now, [Request.cancel COIN oid])
          | CancelResponse.err => Except.ok (st0, reg, [Request.cancel COIN oid])
    match cancelStep with
    | Except.error e => Except.error e
    | Except.ok (st1, reg1, reqs1) =>
      if st1 = ProvideState.cancelled then
        match position with
        | none => Except.ok ⟨st1, none, reg1, reqs1, true⟩
        | some pos =>
          let sz := MAX_POSITION + pos * sideToInt side
          if sz * gp < 10 then Except.ok ⟨st1, some pos, reg1, reqs1, true⟩
          else
            let px := round5g gp
            let reqs2 := reqs1 ++ [Request.place COIN (isBuySide side) sz px]
            match gapPlaceResp with
            | PlaceResponse.okResting oid =>
              Except.ok ⟨ProvideState.gap px oid, some pos, reg1, reqs2, false⟩
            | PlaceResponse.okOther =>
              Except.ok ⟨ProvideState.cancelled, none, reg1, reqs2, false⟩
            | PlaceResponse.err =>
              Except.ok ⟨ProvideState.inFlightOrder now, some pos, reg1, reqs2, false⟩
      else Except.ok ⟨st1, position, reg1, reqs1, false⟩
  else Except.ok ⟨st0, position, reg, [], false⟩

/-- Lines 133-152 of basic_adding_2.py.  The branch condition reads the
LOCAL variable provide_state bound at line 82 (stale, from before the gap
branch), while assignments write the current per-side state st1. -/
def driftSection (side : Side) (bestBid bestAsk : ℚ) (now : ℤ)
    (st0stale st1 : ProvideState) (reg : List (ℕ × ℤ))
    (driftCancelResp : CancelResponse) :
    ProvideState × List (ℕ × ℤ) × List Request :=
  match st0stale with
  | ProvideState.resting px oid =>
    if |ideal_price side bestBid bestAsk - px| >
        ALLOWABLE_DEVIATION * ideal_distance side bestBid bestAsk then
      match driftCancelResp with
      | CancelResponse.ok =>
        (ProvideState.cancelled, setReg reg oid now, [Request.cancel COIN oid])
      | CancelResponse.err => (st1, reg, [Request.cancel COIN oid])
    else (st1, reg, [])
  | ProvideState.inFlightOrder t =>
    if now - t > 10000 then (ProvideState.cancelled, reg, []) else (st1, reg, [])
  | _ => (st1, reg, [])

/-- Lines 154-183 of basic_adding_2.py: re-read the state and, when
cancelled, possibly place a new order at the rounded ideal price. -/
def placeSection (side : Side) (bestBid bestAsk : ℚ) (now : ℤ)
    (st : ProvideState) (position : Option ℚ) (reg : List (ℕ × ℤ))
    (placeResp : PlaceResponse) : StepResult :=
  match st, position with
  | ProvideState.cancelled, none => ⟨ProvideState.cancelled, none, reg, []⟩
  | ProvideState.cancelled, some pos =>
    let sz := MAX_POSITION + pos * sideToInt side
    if sz * ideal_price side bestBid bestAsk < 10 then
      ⟨ProvideState.cancelled, some pos, reg, []⟩
    else
      let px := round5g (ideal_price side bestBid bestAsk)
      let req := [Request.place COIN (isBuySide side) sz px]
      match placeResp with
      | PlaceResponse.okResting oid => ⟨ProvideState.resting px oid, some pos, reg, req⟩
      | PlaceResponse.okOther => ⟨ProvideState.cancelled, none, reg, req⟩
      | PlaceResponse.err => ⟨ProvideState.inFlightOrder now, some pos, reg, req⟩
  | st, position => ⟨st, position, reg, []⟩

/-- One iteration of the side loop of BasicAdder.on_book_update in
basic_adding_2.py, for a given side, with the four network call sites
answered by the oracle arguments. -/
def step2_side (side : Side) (bestBid bestAsk : ℚ) (now : ℤ) (position : Option ℚ)
    (st0 : ProvideState) (reg : List (ℕ × ℤ))
    (gapCancelResp : CancelResponse) (gapPlaceResp : PlaceResponse)
    (driftCancelResp : CancelResponse) (placeResp : PlaceResponse) :
    Except Unit StepResult :=
  match gapSection side bestBid bestAsk now position st0 reg gapCancelResp gapPlaceResp with
  | Except.error e => Except.error e
  | Except.ok g =>
    if g.skip then Except.ok ⟨g.st, g.position, g.registry, g.requests⟩
    else
      match driftSection side bestBid bestAsk now st0 g.st g.registry driftCancelResp with
      | (st2, reg2, reqs2) =>
        let p := placeSection side bestBid bestAsk now st2 g.position reg2 placeResp
        Except.ok ⟨p.st, p.position, p.registry, g.requests ++ reqs2 ++ p.requests⟩

/-- The requests issued by a step (none when the step raised). -/
def requestsOf : Except Unit StepResult → List Request
  | Except.error _ => []
  | Except.ok r => r.requests

/-- Whether a request is an order placement. -/
def isPlace : Request → Bool
  | Request.place _ _ _ _ => true
  | Request.cancel _ _ => false

/-- The placement requests issued by a step. -/
def placedOf (e : Except Unit StepResult) : List Request :=
  (requestsOf e).filter isPlace

/-- The state effect of BasicAdder.on_user_events (both adders): the
position is unconditionally set to None. -/
def on_user_events_position (_prev : Option ℚ) : Option ℚ := none

/-- An entry of the open-orders response of info.open_orders. -/
structure OpenOrder where
  coin : String
  oid : ℕ
deriving DecidableEq

/-- The shared state read and written by BasicAdder.poll. -/
structure PollState where
  stA : ProvideState
  stB : ProvideState
  registry : List (ℕ × ℤ)
  position : Option ℚ
deriving DecidableEq

/-- The oids contributed by a provide state to ok_oids (resting or gap). -/
def restingOids : ProvideState → List ℕ
  | ProvideState.resting _ oid => [oid]
  | ProvideState.gap _ oid => [oid]
  | _ => []

/-- ok_oids = registry keys plus oids of resting/gap provide states. -/
def okOids (s : PollState) : List ℕ :=
  s.registry.map Prod.fst ++ restingOids s.stA ++ restingOids s.stB

/-- Lines 213-217 of basic_adding_2.py, exactly as written: the dict
comprehension KEEPS the entries with current_time - timestamp > 30000. -/
def pruneRegistry (reg : List (ℕ × ℤ)) (now : ℤ) : List (ℕ × ℤ) :=
  reg.filter (fun p => decide (now - p.2 > 30000))

/-- One body of the while loop of BasicAdder.poll in basic_adding_2.py:
cancel unknown open orders, prune the registry, refresh the position
(posResp none models no assetPositions entry for COIN). -/
def poll_cycle (s : PollState) (openOrders : List OpenOrder) (posResp : Option ℚ)
    (now : ℤ) : PollState × List Request :=
  let unknowns := openOrders.filter (fun o => decide (o.coin = COIN ∧ o.oid ∉ okOids s))
  let cancels := unknowns.map (fun o => Request.cancel o.coin o.oid)
  let reg := pruneRegistry s.registry now
  let pos := match posResp with
    | some v => some v
    | none => s.position
  (⟨s.stA, s.stB, reg, pos⟩, cancels)

end BasicAdding2

namespace AvellanedaStoikov

/-- A (price, size) pair as returned per side by calculate_quotes. -/
structure Quote where
  price : ℝ
  size : ℝ

/-- The dict {"bid": _, "ask": _} returned by calculate_quotes. -/
structure Quotes where
  bid : Quote
  ask : Quote

/-- AvellanedaStoikovMarketMaker.calculate_quotes, exactly as in
avellaneda_stoikov_market_maker.py (gamma, k, r are the constructor
parameters of the class). -/
noncomputable def calculate_quotes (gamma k r mid_price spread inventory vol dt : ℝ) :
    Quotes :=
  let m := -gamma * spread / 2
  let delta := gamma * vol ^ 2 * dt
  let l := k * Real.exp (-r * dt)
  let bid_price := mid_price - m - inventory * delta / 2 - l
  let ask_price := mid_price + m + inventory * delta / 2 + l
  let bid_size := (1 / 2) * (1 + inventory * delta / l)
  let ask_size := (1 / 2) * (1 - inventory * delta / l)
  ⟨⟨bid_price, bid_size⟩, ⟨ask_price, ask_size⟩⟩

end AvellanedaStoikov

namespace BasicAdding3

/-- GAMMA = 0.005 in basic_adding_3.py. -/
noncomputable def GAMMA : ℝ := 5 / 1000

/-- K = 0.001 in basic_adding_3.py. -/
noncomputable def K : ℝ := 1 / 1000

/-- R = 0.0005 in basic_adding_3.py. -/
noncomputable def R : ℝ := 5 / 10000

/-- VOL = 0.02 in basic_adding_3.py. -/
noncomputable def VOL : ℝ := 2 / 100

/-- DT = 0.05 in basic_adding_3.py. -/
noncomputable def DT : ℝ := 5 / 100

/-- ALLOWABLE_DEVIATION = 0.5 in basic_adding_3.py. -/
noncomputable def ALLOWABLE_DEVIATION : ℝ := 1 / 2

/-- MAX_POSITION = 100 in basic_adding_3.py. -/
noncomputable def MAX_POSITION : ℝ := 100

/-- COIN = "INJ" in basic_adding_3.py. -/
def COIN : String := "INJ"

/-- The ProvideState union of basic_adding_3.py (no gap variant). -/
inductive ProvideState
  | inFlightOrder (time : ℤ)
  | resting (px : ℝ) (oid : ℕ)
  | cancelled

/-- A network request issued by the strategy of basic_adding_3.py. -/
inductive Request
  | cancel (coin : String) (oid : ℕ)
  | place (coin : String) (isBuy : Bool) (sz : ℝ) (px : ℝ)

/-- side_to_int as a real factor. -/
noncomputable def sideToIntR : Side → ℝ
  | Side.A => 1
  | Side.B => -1

/-- Result of one iteration of the side loop of on_book_update. -/
structure StepResult where
  st : ProvideState
  position : Option ℝ
  registry : List (ℕ × ℤ)
  requests : List Request

/-- recently_cancelled_oid_to_time[oid] = ts for basic_adding_3. -/
def setReg (reg : List (ℕ × ℤ)) (oid : ℕ) (ts : ℤ) : List (ℕ × ℤ) :=
  (oid, ts) :: reg.filter (fun p => decide (p.1 ≠ oid))

/-- The 5-significant-digit price rounding on reals. -/
noncomputable def round5gR (x : ℝ) : ℝ :=
  if x = 0 then 0
  else
    ((round (x * (10 : ℝ) ^ ((4 : ℤ) - Int.log 10 |x|)) : ℤ) : ℝ) *
      (10 : ℝ) ^ (Int.log 10 |x| - (4 : ℤ))

/-- One iteration of the side loop of BasicAdder.on_book_update in
basic_adding_3.py.  A None position is replaced by 0 for the quote and
size computation (line 121); the placement branch has no position or
notional guard (the notional check is commented out in the source). -/
noncomputable def step3_side (side : Side) (bestBid bestAsk : ℝ) (now : ℤ)
    (position0 : Option ℝ) (st0 : ProvideState) (reg : List (ℕ × ℤ))
    (cancelResp : BasicAdding2.CancelResponse)
    (placeResp : BasicAdding2.PlaceResponse) : StepResult :=
  let mid_price := (bestBid + bestAsk) / 2
  let spread := bestAsk - bestBid
  let position := position0.getD 0
  let quotes := AvellanedaStoikov.calculate_quotes GAMMA K R mid_price spread position VOL DT
  let quote_price := if side = Side.B then quotes.bid.price else quotes.ask.price
  let s1 : ProvideState × List (ℕ × ℤ) × List Request :=
    match st0 with
    | ProvideState.resting px oid =>
      if |quote_price - px| > ALLOWABLE_DEVIATION * spread then
        match cancelResp with
        | BasicAdding2.CancelResponse.ok =>
          (ProvideState.cancelled, setReg reg oid now, [Request.cancel COIN oid])
        | BasicAdding2.CancelResponse.err => (st0, reg, [Request.cancel COIN oid])
      else (st0, reg, [])
    | ProvideState.inFlightOrder t =>
      if now - t > 10000 then (ProvideState.cancelled, reg, []) else (st0, reg, [])
    | ProvideState.cancelled => (st0, reg, [])
  match s1 with
  | (st1, reg1, reqs1) =>
    match st1 with
    | ProvideState.cancelled =>
      let sz := MAX_POSITION + position * sideToIntR side
      let px := round5gR quote_price
      let reqs2 := reqs1 ++ [Request.place COIN (BasicAdding2.isBuySide side) sz px]
      match placeResp with
      | BasicAdding2.PlaceResponse.okResting oid =>
        ⟨ProvideState.resting px oid, position0, reg1, reqs2⟩
      | BasicAdding2.PlaceResponse.okOther =>
        ⟨ProvideState.cancelled, none, reg1, reqs2⟩
      | BasicAdding2.PlaceResponse.err =>
        ⟨ProvideState.inFlightOrder now, position0, reg1, reqs2⟩
    | st1 => ⟨st1, position0, reg1, reqs1⟩

end BasicAdding3

open BasicAdding2

/-- When the gap condition fails, the gap section is a no-op. -/
theorem gapSection_not_triggered {side : Side} {bb ba : ℚ} (now : ℤ) (pos : Option ℚ)
    (st0 : ProvideState) (reg : List (ℕ × ℤ)) (gc : CancelResponse) (gp : PlaceResponse)
    (hgap : ¬ gapTriggered side bb ba) :
    gapSection side bb ba now pos st0 reg gc gp = Except.ok ⟨st0, pos, reg, [], false⟩ := by
  simp [gapSection, hgap]

/-- C2.  The registry pruning of BasicAdder.poll (basic_adding_2.py lines
212-217 and basic_adding_3.py lines 208-213), evaluated on concrete
entries: an entry 10 s old is REMOVED and an entry 40 s old is RETAINED
by the dict comprehension as written, which keeps exactly the entries with
current_time - timestamp > 30000 — the inverse of the claimed 30 s TTL
(prune strictly-older-than-30 s, retain the rest). -/
theorem prune_keeps_old_entries :
    pruneRegistry [(7, 0)] 10000 = [] ∧ pruneRegistry [(7, 0)] 40000 = [(7, 0)] := by
  decide

/-- C6, counterexample.  With a registry entry one second old protecting a
still-open order, the first poll cycle issues no requests (so the open-order
response is unchanged by its effects), yet the second cycle cancels that
order, because the first cycle pruned the young registry entry.  Run twice
with no intervening fills or book updates, the poll body is therefore not
idempotent as claimed. -/
theorem poll_second_cycle_cancels :
    (poll_cycle ⟨ProvideState.cancelled, ProvideState.cancelled, [(5, 1000)], none⟩
        [⟨"ARB", 5⟩] none 2000).2 = []
  ∧ (poll_cycle
        (poll_cycle ⟨ProvideState.cancelled, ProvideState.cancelled, [(5, 1000)], none⟩
          [⟨"ARB", 5⟩] none 2000).1
        [⟨"ARB", 5⟩] none 12000).2 = [Request.cancel "ARB" 5] := by
  decide

/-- C6, amended.  If the cancelled-oid registry is empty at the first cycle
(so that pruning between the cycles cannot withdraw protection from any
open order), then a second reconciliation cycle whose open-order response
reflects the cancellations of the first issues no requests at all. -/
theorem poll_idempotent_with_empty_registry
    (stA stB : ProvideState) (pos0 : Option ℚ) (open1 : List OpenOrder)
    (posResp1 posResp2 : Option ℚ) (now1 now2 : ℤ) :
    (poll_cycle
      (poll_cycle ⟨stA, stB, [], pos0⟩ open1 posResp1 now1).1
      (open1.filter (fun o => decide
        (Request.cancel o.coin o.oid ∉ (poll_cycle ⟨stA, stB, [], pos0⟩ open1 posResp1 now1).2)))
      posResp2 now2).2 = [] := by
  simp only [poll_cycle, pruneRegistry, List.filter_nil]
  rw [List.map_eq_nil_iff, List.filter_eq_nil_iff]
  intro o ho
  rcases List.mem_filter.mp ho with ⟨ho1, ho2⟩
  simp only [decide_eq_true_eq] at ho2 ⊢
  rintro ⟨hcoin, hnot⟩
  apply ho2
  refine List.mem_map.mpr ⟨o, List.mem_filter.mpr ⟨ho1, ?_⟩, rfl⟩
  simp only [decide_eq_true_eq]
  exact ⟨hcoin, by simpa [okOids] using hnot⟩

/-- C3.  On a book update with no liquidity gap and a resting order at px,
the basic_adding_2 handler issues a cancel request for that order if and
only if the ideal price has drifted from px by strictly more than
ALLOWABLE_DEVIATION times the ideal distance; in particular boundary
equality does not trigger a cancel.  Quantified over all positions and all
network-response oracles. -/
theorem drift_cancel_iff (side : Side) (bb ba : ℚ) (now : ℤ) (pos : Option ℚ)
    (px : ℚ) (oid : ℕ) (reg : List (ℕ × ℤ)) (gc dc : CancelResponse) (gp pr : PlaceResponse)
    (hgap : ¬ gapTriggered side bb ba) :
    (Request.cancel COIN oid ∈
        requestsOf (step2_side side bb ba now pos (ProvideState.resting px oid) reg gc gp dc pr))
      ↔ |ideal_price side bb ba - px| > ALLOWABLE_DEVIATION * ideal_distance side bb ba := by
  cases dc <;> rcases pos with _ | q <;> cases pr <;>
    simp only [step2_side, gapSection_not_triggered _ _ _ _ _ _ hgap, driftSection,
      placeSection, requestsOf] <;>
    split_ifs <;>
    simp_all [requestsOf]

/-- C3, witness: Scenario A of the spec.  Best bid 1000, best ask 1001,
depth 0.001 (no gap since 1 is not greater than 2), side "B" resting at
998.4: the ideal price is 999, the deviation 0.6 exceeds 0.5 * 1, and the
handler issues the cancel. -/
theorem drift_cancel_iff_witness :
    Request.cancel COIN 1 ∈
      requestsOf (step2_side Side.B 1000 1001 0 none (ProvideState.resting (4992/5) 1) []
        CancelResponse.ok PlaceResponse.okOther CancelResponse.ok PlaceResponse.okOther) :=
  (drift_cancel_iff Side.B 1000 1001 0 none (4992/5) 1 []
      CancelResponse.ok CancelResponse.ok PlaceResponse.okOther PlaceResponse.okOther
      (by with_unfolding_all decide)).mpr
    (by with_unfolding_all decide)

/-- C4, counterexample.  Best bid 1000, best ask 1004, side "B" (the bid
side): the ideal distance is 1, the gap condition holds (4 > 2), and the
gap-straddle price computed for the bid side is best_ask - 1.5, i.e.
1002.5 = bestBid + 2.5, not bestBid + 1.5 as claimed. -/
theorem gap_price_bid_side_value :
    gapTriggered Side.B 1000 1004
  ∧ ideal_distance Side.B 1000 1004 = 1
  ∧ gap_price Side.B 1000 1004 = 1000 + 5 / 2
  ∧ gap_price Side.B 1000 1004 ≠ 1000 + (3 / 2) * ideal_distance Side.B 1000 1004 := by
  with_unfolding_all decide

/-- C4, amended.  The gap branch is entered if and only if best_ask -
best_bid strictly exceeds twice the ideal distance; when it is entered,
the gap-straddle price for the bid side ("B") is best_ask - 1.5 times the
ideal distance (for the ask side "A" it is best_bid + 1.5 times the ideal
distance), and the bid-side gap order is placed at that price (rounded to
5 significant digits), as exhibited on the full handler step. -/
theorem gap_branch_condition_and_price :
    (∀ (side : Side) (bb ba : ℚ),
      gapTriggered side bb ba ↔ ba - bb > 2 * ideal_distance side bb ba)
  ∧ (∀ bb ba : ℚ,
      gap_price Side.B bb ba = ba - ideal_distance Side.B bb ba * (3 / 2)
      ∧ gap_price Side.A bb ba = bb + ideal_distance Side.A bb ba * (3 / 2))
  ∧ (∀ (bb ba : ℚ) (now : ℤ) (q : ℚ) (reg : List (ℕ × ℤ)) (oid : ℕ),
      gapTriggered Side.B bb ba →
      ¬ ((MAX_POSITION + q * sideToInt Side.B) * gap_price Side.B bb ba < 10) →
      Request.place COIN true (MAX_POSITION + q * sideToInt Side.B)
          (round5g (gap_price Side.B bb ba)) ∈
        requestsOf (step2_side Side.B bb ba now (some q) ProvideState.cancelled reg
          CancelResponse.ok (PlaceResponse.okResting oid) CancelResponse.ok
          PlaceResponse.err)) := by
  refine ⟨fun side bb ba => Iff.rfl, fun bb ba => ⟨rfl, rfl⟩, ?_⟩
  intro bb ba now q reg oid hgap hnot
  simp [step2_side, gapSection, driftSection, placeSection, requestsOf, isBuySide,
    hgap, hnot]

/-- C4, amended, witness: best bid 1000, best ask 1004, position 0 — the
bid-side gap order goes out at the rounded gap price. -/
theorem gap_branch_condition_and_price_witness :
    Request.place COIN true (MAX_POSITION + 0 * sideToInt Side.B)
        (round5g (gap_price Side.B 1000 1004)) ∈
      requestsOf (step2_side Side.B 1000 1004 0 (some 0) ProvideState.cancelled []
        CancelResponse.ok (PlaceResponse.okResting 7) CancelResponse.ok
        PlaceResponse.err) :=
  gap_branch_condition_and_price.2.2 1000 1004 0 0 [] 7
    (by with_unfolding_all decide) (by with_unfolding_all decide)

/-- C5, amended (restricted to basic_adding_2; basic_adding_3 has the
notional check commented out, see the counterexample).  A side in the
cancelled state with a known position whose projected notional
size * ideal_price is below 10 issues no request at all and stays
cancelled. -/
theorem min_notional_suppresses_in_adding2 (side : Side) (bb ba : ℚ) (now : ℤ) (q : ℚ)
    (reg : List (ℕ × ℤ)) (gc dc : CancelResponse) (gp pr : PlaceResponse)
    (hgap : ¬ gapTriggered side bb ba)
    (hnot : (MAX_POSITION + q * sideToInt side) * ideal_price side bb ba < 10) :
    step2_side side bb ba now (some q) ProvideState.cancelled reg gc gp dc pr
      = Except.ok ⟨ProvideState.cancelled, some q, reg, []⟩ := by
  simp [step2_side, gapSection_not_triggered _ _ _ _ _ _ hgap, driftSection,
    placeSection, hnot]

/-- C5, amended, witness: best bid 1000, best ask 1001 (no gap), side "B",
position 30, so the projected size is 20 - 30 = -10 and the notional is
negative: nothing is placed and the side stays cancelled. -/
theorem min_notional_suppresses_in_adding2_witness :
    step2_side Side.B 1000 1001 0 (some 30) ProvideState.cancelled []
        CancelResponse.ok PlaceResponse.okOther CancelResponse.ok PlaceResponse.okOther
      = Except.ok ⟨ProvideState.cancelled, some 30, [], []⟩ :=
  min_notional_suppresses_in_adding2 Side.B 1000 1001 0 30 []
    CancelResponse.ok CancelResponse.ok PlaceResponse.okOther PlaceResponse.okOther
    (by with_unfolding_all decide) (by with_unfolding_all decide)

/-- C7.  A placement answered with status ok but no resting
acknowledgement reverts the side to cancelled and forces the position to
None, on the normal placement path and the gap placement path of
basic_adding_2 and on the placement path of basic_adding_3. -/
theorem ambiguous_ack_trust_break :
    (∀ (side : Side) (bb ba : ℚ) (now : ℤ) (q : ℚ) (reg : List (ℕ × ℤ))
        (gc dc : CancelResponse) (gp : PlaceResponse),
      ¬ gapTriggered side bb ba →
      ¬ ((MAX_POSITION + q * sideToInt side) * ideal_price side bb ba < 10) →
      step2_side side bb ba now (some q) ProvideState.cancelled reg gc gp dc
          PlaceResponse.okOther
        = Except.ok ⟨ProvideState.cancelled, none, reg,
            [Request.place COIN (isBuySide side) (MAX_POSITION + q * sideToInt side)
              (round5g (ideal_price side bb ba))]⟩)
  ∧ (∀ (side : Side) (bb ba : ℚ) (now : ℤ) (q : ℚ) (reg : List (ℕ × ℤ))
        (gc dc : CancelResponse) (pr : PlaceResponse),
      gapTriggered side bb ba →
      ¬ ((MAX_POSITION + q * sideToInt side) * gap_price side bb ba < 10) →
      step2_side side bb ba now (some q) ProvideState.cancelled reg gc
          PlaceResponse.okOther dc pr
        = Except.ok ⟨ProvideState.cancelled, none, reg,
            [Request.place COIN (isBuySide side) (MAX_POSITION + q * sideToInt side)
              (round5g (gap_price side bb ba))]⟩)
  ∧ (∀ (side : Side) (bb ba : ℝ) (now : ℤ) (pos0 : Option ℝ) (reg : List (ℕ × ℤ))
        (cr : CancelResponse),
      (BasicAdding3.step3_side side bb ba now pos0 BasicAdding3.ProvideState.cancelled reg
          cr PlaceResponse.okOther).st = BasicAdding3.ProvideState.cancelled
      ∧ (BasicAdding3.step3_side side bb ba now pos0 BasicAdding3.ProvideState.cancelled reg
          cr PlaceResponse.okOther).position = none) := by
  refine ⟨?_, ?_, ?_⟩
  · intro side bb ba now q reg gc dc gp hgap hnot
    simp [step2_side, gapSection_not_triggered _ _ _ _ _ _ hgap, driftSection,
      placeSection, hnot]
  · intro side bb ba now q reg gc dc pr hgap hnot
    simp [step2_side, gapSection, driftSection, placeSection, hgap, hnot]
  · intro side bb ba now pos0 reg cr
    exact ⟨rfl, rfl⟩

/-- C7, witness: concrete instantiations of the two hypothesis-bearing
branches (no-gap book 1000/1001 and gap book 1000/1004, position 0). -/
theorem ambiguous_ack_trust_break_witness :
    step2_side Side.B 1000 1001 0 (some 0) ProvideState.cancelled []
        CancelResponse.ok PlaceResponse.err CancelResponse.ok PlaceResponse.okOther
      = Except.ok ⟨ProvideState.cancelled, none, [],
          [Request.place COIN (isBuySide Side.B) (MAX_POSITION + 0 * sideToInt Side.B)
            (round5g (ideal_price Side.B 1000 1001))]⟩
  ∧ step2_side Side.B 1000 1004 0 (some 0) ProvideState.cancelled []
        CancelResponse.ok PlaceResponse.okOther CancelResponse.ok PlaceResponse.err
      = Except.ok ⟨ProvideState.cancelled, none, [],
          [Request.place COIN (isBuySide Side.B) (MAX_POSITION + 0 * sideToInt Side.B)
            (round5g (gap_price Side.B 1000 1004))]⟩ :=
  ⟨ambiguous_ack_trust_break.1 Side.B 1000 1001 0 0 []
      CancelResponse.ok CancelResponse.ok PlaceResponse.err
      (by with_unfolding_all decide) (by with_unfolding_all decide),
    ambiguous_ack_trust_break.2.1 Side.B 1000 1004 0 0 []
      CancelResponse.ok CancelResponse.ok PlaceResponse.err
      (by with_unfolding_all decide) (by with_unfolding_all decide)⟩

/-- C1.  On any user event the position becomes None; while the position
is None the basic_adding_2 book-update handler issues no placement on any
side and for any responses (so the claim holds there); but the
basic_adding_3 book-update handler, which substitutes 0 for an unknown
position, still places an order whenever the side is cancelled — the
claimed property fails on basic_adding_3. -/
theorem fill_invalidation_and_adding3_violation :
    (∀ p : Option ℚ, on_user_events_position p = none)
  ∧ (∀ (side : Side) (bb ba : ℚ) (now : ℤ) (st0 : ProvideState) (reg : List (ℕ × ℤ))
      (gc dc : CancelResponse) (gp pr : PlaceResponse),
      placedOf (step2_side side bb ba now none st0 reg gc gp dc pr) = [])
  ∧ (∀ (side : Side) (bb ba : ℝ) (now : ℤ) (reg : List (ℕ × ℤ))
      (cr : CancelResponse) (pr : PlaceResponse),
      (BasicAdding3.step3_side side bb ba now none BasicAdding3.ProvideState.cancelled reg
        cr pr).requests ≠ []) := by
  refine ⟨fun p => rfl, ?_, ?_⟩
  · intro side bb ba now st0 reg gc dc gp pr
    by_cases hgap : gapTriggered side bb ba
    · cases st0 <;> cases gc <;> cases dc <;> cases gp <;> cases pr <;>
        simp [step2_side, gapSection, driftSection, placeSection, placedOf,
          requestsOf, isPlace, lookupOid, hgap] <;>
        split_ifs <;> simp [isPlace]
    · cases st0 <;> cases gc <;> cases dc <;> cases gp <;> cases pr <;>
        simp [step2_side, gapSection_not_triggered _ _ _ _ _ _ hgap, driftSection,
          placeSection, placedOf, requestsOf, isPlace, hgap] <;>
        split_ifs <;> simp [isPlace]
  · intro side bb ba now reg cr pr
    cases pr <;> simp [BasicAdding3.step3_side]

/-- C10.  The oid lookup of the gap-cancellation branch is undefined (a
KeyError, modelled as none) on the in_flight_order state, it is defined
exactly on the resting and gap states, and a book update whose gap
condition holds while the side is in_flight_order makes the whole
basic_adding_2 handler step raise. -/
theorem gap_oid_lookup_partial :
    (∀ t : ℤ, lookupOid (ProvideState.inFlightOrder t) = none)
  ∧ (∀ s : ProvideState, (lookupOid s).isSome = true ↔
      ((∃ px oid, s = ProvideState.resting px oid) ∨ (∃ px oid, s = ProvideState.gap px oid)))
  ∧ (∀ (side : Side) (bb ba : ℚ) (now : ℤ) (pos : Option ℚ) (t : ℤ) (reg : List (ℕ × ℤ))
      (gc dc : CancelResponse) (gp pr : PlaceResponse),
      gapTriggered side bb ba →
      step2_side side bb ba now pos (ProvideState.inFlightOrder t) reg gc gp dc pr
        = Except.error ()) := by
  refine ⟨fun t => rfl, ?_, ?_⟩
  · intro s
    cases s <;> simp [lookupOid]
  · intro side bb ba now pos t reg gc dc gp pr hgap
    simp [step2_side, gapSection, hgap, lookupOid]

/-- C10, witness: a concrete gap book (1000/1004) with an in-flight state
makes the step raise. -/
theorem gap_oid_lookup_partial_witness :
    step2_side Side.B 1000 1004 0 none (ProvideState.inFlightOrder 0) []
      CancelResponse.ok PlaceResponse.okOther CancelResponse.ok PlaceResponse.okOther
      = Except.error () :=
  gap_oid_lookup_partial.2.2 Side.B 1000 1004 0 none 0 []
    CancelResponse.ok CancelResponse.ok PlaceResponse.okOther PlaceResponse.okOther
    (by with_unfolding_all decide)

/-- C5, counterexample (basic_adding_3).  Book 99.5/100.5, known position
150, side "B" cancelled: the projected notional size * quote_price is
about -5000, far below the minimum notional 10, yet the handler still
issues a placement request and leaves the side in_flight (not cancelled),
because the notional check is commented out in basic_adding_3.py. -/
theorem adding3_places_below_min_notional :
    (BasicAdding3.step3_side Side.B (199/2) (201/2) 0 (some 150)
        BasicAdding3.ProvideState.cancelled [] CancelResponse.ok
        PlaceResponse.err).requests ≠ []
  ∧ (BasicAdding3.step3_side Side.B (199/2) (201/2) 0 (some 150)
        BasicAdding3.ProvideState.cancelled [] CancelResponse.ok
        PlaceResponse.err).st ≠ BasicAdding3.ProvideState.cancelled
  ∧ (BasicAdding3.MAX_POSITION + 150 * BasicAdding3.sideToIntR Side.B) *
      (AvellanedaStoikov.calculate_quotes BasicAdding3.GAMMA BasicAdding3.K BasicAdding3.R
        (((199 : ℝ)/2 + 201/2) / 2) ((201 : ℝ)/2 - 199/2) 150 BasicAdding3.VOL
        BasicAdding3.DT).bid.price < 10 := by
  refine ⟨by simp [BasicAdding3.step3_side], by simp [BasicAdding3.step3_side], ?_⟩
  have hexp1 : Real.exp (-(5/10000 : ℝ) * (5/100)) ≤ 1 := by
    rw [Real.exp_le_one_iff]
    norm_num
  have hexp0 : (0 : ℝ) < Real.exp (-(5/10000 : ℝ) * (5/100)) := Real.exp_pos _
  simp only [AvellanedaStoikov.calculate_quotes, BasicAdding3.MAX_POSITION,
    BasicAdding3.GAMMA, BasicAdding3.K, BasicAdding3.R, BasicAdding3.VOL,
    BasicAdding3.DT, BasicAdding3.sideToIntR]
  nlinarith [hexp1, hexp0]

/-- C8.  For all inputs, calculate_quotes returns bid price
mid + gamma*s/2 - q*delta/2 - lambda and ask price
mid - gamma*s/2 + q*delta/2 + lambda — the half-spread term enters with
the OPPOSITE sign to the claim (the code sets m = -gamma*spread/2 and then
subtracts m from mid for the bid); at gamma=1, k=1, r=0, mid=100, s=2,
q=0, vol=0, dt=1 the code returns bid 100 while the claimed formula gives
98. -/
theorem half_spread_sign_flipped :
    (∀ gamma k r mid s q vol dt : ℝ,
      (AvellanedaStoikov.calculate_quotes gamma k r mid s q vol dt).bid.price
          = mid + gamma * s / 2 - q * (gamma * vol ^ 2 * dt) / 2 - k * Real.exp (-r * dt)
      ∧ (AvellanedaStoikov.calculate_quotes gamma k r mid s q vol dt).ask.price
          = mid - gamma * s / 2 + q * (gamma * vol ^ 2 * dt) / 2 + k * Real.exp (-r * dt))
  ∧ (AvellanedaStoikov.calculate_quotes 1 1 0 100 2 0 0 1).bid.price = 100
  ∧ (100 : ℝ) - 1 * 2 / 2 - 0 * (1 * 0 ^ 2 * 1) / 2 - 1 * Real.exp (-0 * 1) ≠ 100 := by
  refine ⟨?_, ?_, ?_⟩
  · intro gamma k r mid s q vol dt
    constructor <;> (simp only [AvellanedaStoikov.calculate_quotes]; ring)
  · norm_num [AvellanedaStoikov.calculate_quotes, Real.exp_zero]
  · norm_num [Real.exp_zero]

/-- C9, counterexample.  At gamma=1, k=1, r=0, vol=1, dt=1 and inventory
q=-3 the bid size returned by calculate_quotes is -1, which is negative:
the sizes are NOT clamped to [0, maxSize] (no clamping and no maxSize
exist in the code). -/
theorem bid_size_negative_at_large_inventory :
    (AvellanedaStoikov.calculate_quotes 1 1 0 0 0 (-3) 1 1).bid.size = -1
  ∧ ¬ (0 ≤ (AvellanedaStoikov.calculate_quotes 1 1 0 0 0 (-3) 1 1).bid.size) := by
  have h : (AvellanedaStoikov.calculate_quotes 1 1 0 0 0 (-3) 1 1).bid.size = -1 := by
    norm_num [AvellanedaStoikov.calculate_quotes, Real.exp_zero]
  refine ⟨h, ?_⟩
  rw [h]
  norm_num

/-- C9, amended.  The sizes returned by calculate_quotes are exactly the
raw linear terms (1 plus-or-minus q*delta/lambda)/2 with no clamping; they
always sum to 1 but for large absolute inventory they leave [0, 1] (see
the counterexample). -/
theorem quote_sizes_unclamped (gamma k r mid s q vol dt : ℝ) :
    (AvellanedaStoikov.calculate_quotes gamma k r mid s q vol dt).bid.size
        = (1 / 2) * (1 + q * (gamma * vol ^ 2 * dt) / (k * Real.exp (-r * dt)))
  ∧ (AvellanedaStoikov.calculate_quotes gamma k r mid s q vol dt).ask.size
        = (1 / 2) * (1 - q * (gamma * vol ^ 2 * dt) / (k * Real.exp (-r * dt)))
  ∧ (AvellanedaStoikov.calculate_quotes gamma k r mid s q vol dt).bid.size
      + (AvellanedaStoikov.calculate_quotes gamma k r mid s q vol dt).ask.size = 1 := by
  refine ⟨rfl, rfl, ?_⟩
  simp only [AvellanedaStoikov.calculate_quotes]
  ring

end HL
